import Mathlib

/-
Verification of the credit-ledger and entitlement-gating logic of the
edgerusher repository.

The durable state is the `user_credits` table: at most one row per
`user_id`, holding an integer `balance`.  We embed it as a partial map
from account ids to balances.  The two handlers that mutate it are

  * the Stripe webhook POST handler (credits a purchase), and
  * the pro-chat POST handler (checks, debits, fans out to three
    language-model providers, refunds when all three fail).

Both are embedded below from the source; database reads of unrelated
tables (games_raw, ai_outputs) only feed the prompt string and are
omitted, since provider outcomes are parameters of the model anyway.
-/

namespace EdgeRusher

abbrev AccountId := String

/-- The user_credits table: at most one balance row per user_id. -/
def Ledger := AccountId → Option Int

/-- Initial database state: no ledger row for any account. -/
def Ledger.empty : Ledger := fun _ => none

/-- Writing a balance for one account: an update (or insert) of that
account's row, leaving every other row unchanged. -/
def setRow (l : Ledger) (u : AccountId) (b : Int) : Ledger :=
  fun x => if x = u then some b else l x

/-- A Stripe event as produced by a successful
stripe.webhooks.constructEvent: a checkout.session.completed event
carries the processor-assigned event id and, in its session metadata,
the purchasing userId and the number of credits bought (the handler
reads them as session.metadata.userId / .credits). -/
inductive StripeEvent where
  | checkoutSessionCompleted (eventId : String) (userId : AccountId) (credits : Int)
  | otherEvent

/-- Outcome of one webhook delivery: HTTP status, response body, and
the database state after the handler ran. -/
structure WebhookResult where
  status : Nat
  body : String
  ledger : Ledger

/-- Embedding of the Stripe webhook POST handler.  `verified` is the
result of stripe.webhooks.constructEvent: `none` when signature
verification throws, `some e` when it yields event `e`.  On a
checkout.session.completed event the handler reads the existing row
and either updates it to existing.balance + credits or inserts a fresh
row with balance = credits.  Note that the handler never consults the
event id: nothing in the source records which external event ids have
already been applied. -/
def stripeWebhookPOST (verified : Option StripeEvent) (l : Ledger) : WebhookResult :=
  match verified with
  | none => ⟨400, "Invalid signature", l⟩
  | some .otherEvent => ⟨200, "received", l⟩
  | some (.checkoutSessionCompleted _ userId credits) =>
      match l userId with
      | some existing => ⟨200, "received", setRow l userId (existing + credits)⟩
      | none => ⟨200, "received", setRow l userId credits⟩

/-- Settled outcome of one provider call, as seen through
Promise.allSettled: fulfilled with the extracted response text, or
rejected (thrown error / non-ok HTTP response). -/
inductive ProviderOutcome where
  | fulfilled (value : String)
  | rejected
deriving DecidableEq

/-- One step of the response-combining loop in the pro-chat handler:
for a fulfilled outcome, append the provider's section to
combinedResponse and push its model name onto models; a rejected
outcome contributes nothing. -/
def combineStep (header modelName : String) (r : ProviderOutcome)
    (acc : String × List String) : String × List String :=
  match r with
  | .fulfilled v => (acc.1 ++ ("## " ++ header ++ "\n\n" ++ v ++ "\n\n"), acc.2 ++ [modelName])
  | .rejected => acc

/-- The full combining sequence of the pro-chat handler, in source
order: OpenAI, then Claude, then Gemini. -/
def combineAll (r1 r2 r3 : ProviderOutcome) : String × List String :=
  combineStep "Neural Network Insights" "Neural Network" r3
    (combineStep "Deep Learning Analysis" "Deep Learning" r2
      (combineStep "Advanced Analytics Engine" "Advanced Analytics" r1 ("", [])))

/-- The parsed JSON body of a pro-chat request. -/
structure ProChatRequest where
  query : String
  userId : AccountId

/-- Outcome of one pro-chat request: HTTP status, body text (the
combined response on success, the error message otherwise), the
database state afterwards, and whether the handler reached the
provider fan-out (it issues the three provider calls only after the
credit check passed and the debit was written). -/
structure ProChatResult where
  status : Nat
  body : String
  ledger : Ledger
  providersCalled : Bool

/-- Embedding of the pro-chat POST handler, run sequentially (its
interleaving behaviour is modelled separately below).  Steps, from the
source: reject a request missing query or userId; read the caller's
user_credits row; if absent or balance < 10 respond 402 Insufficient
credits; otherwise write balance - 10, fan out to the three providers,
and combine the fulfilled outcomes; if none fulfilled, write back the
initially read balance and throw, which the catch block turns into a
500 response; otherwise respond 200 with the combined text. -/
def proChatPOST (req : ProChatRequest) (r1 r2 r3 : ProviderOutcome) (l : Ledger) :
    ProChatResult :=
  if req.query = "" ∨ req.userId = "" then
    ⟨400, "Missing query or userId", l, false⟩
  else
    match l req.userId with
    | none => ⟨402, "Insufficient credits", l, false⟩
    | some balance =>
        if balance < 10 then
          ⟨402, "Insufficient credits", l, false⟩
        else
          let afterDebit := setRow l req.userId (balance - 10)
          let combined := combineAll r1 r2 r3
          if combined.2.length = 0 then
            ⟨500, "All AI models failed to respond", setRow afterDebit req.userId balance, true⟩
          else
            ⟨200, combined.1, afterDebit, true⟩

/-- The text one provider contributes to the merged response: its
fixed section header plus its response text when fulfilled, nothing
when it failed. -/
def sectionText (header : String) : ProviderOutcome → String
  | .fulfilled v => "## " ++ header ++ "\n\n" ++ v ++ "\n\n"
  | .rejected => ""

end EdgeRusher

namespace EdgeRusher

/-- C6: a webhook delivery whose signature fails verification gets a
400 Invalid signature response and mutates no ledger row. -/
theorem webhook_invalid_signature_rejected (l : Ledger) :
    (stripeWebhookPOST none l).status = 400 ∧
      (stripeWebhookPOST none l).body = "Invalid signature" ∧
      (stripeWebhookPOST none l).ledger = l :=
  ⟨rfl, rfl, rfl⟩

/-- C7: a verified completed-purchase event crediting amount `a` to
account `u` leaves that account's balance equal to its previous
balance (0 when it had no row) plus `a`. -/
theorem webhook_credit_adds_amount (l : Ledger) (eid : String) (u : AccountId) (a : Int) :
    (stripeWebhookPOST (some (.checkoutSessionCompleted eid u a)) l).ledger u
      = some ((l u).getD 0 + a) := by
  unfold stripeWebhookPOST
  cases h : l u with
  | none => simp [h, setRow]
  | some b => simp [h, setRow]

/-- C1 (refuting evaluation): delivering the same
checkout.session.completed event (event id evt_1, 500 credits) twice
from the empty database leaves the balance at 1000, not at the 500 a
single delivery produces — the handler keeps no record of applied
event ids, so replay double-credits. -/
theorem webhook_replay_double_credits :
    (stripeWebhookPOST (some (.checkoutSessionCompleted "evt_1" "acct" 500))
        (stripeWebhookPOST (some (.checkoutSessionCompleted "evt_1" "acct" 500))
          Ledger.empty).ledger).ledger "acct" = some 1000 ∧
      (stripeWebhookPOST (some (.checkoutSessionCompleted "evt_1" "acct" 500))
          Ledger.empty).ledger "acct" = some 500 := by
  constructor <;> rfl

/-- C5: when the caller has no ledger row, or a balance below the
10-credit price, the pro-chat handler answers 402 Insufficient credits
whatever the providers would have returned, changes no ledger row, and
never reaches the provider fan-out. -/
theorem insufficient_credits_rejection (req : ProChatRequest) (r1 r2 r3 : ProviderOutcome)
    (l : Ledger) (hq : req.query ≠ "") (hu : req.userId ≠ "")
    (hb : l req.userId = none ∨ ∃ b, l req.userId = some b ∧ b < 10) :
    (proChatPOST req r1 r2 r3 l).status = 402 ∧
      (proChatPOST req r1 r2 r3 l).body = "Insufficient credits" ∧
      (proChatPOST req r1 r2 r3 l).ledger = l ∧
      (proChatPOST req r1 r2 r3 l).providersCalled = false := by
  unfold proChatPOST
  rcases hb with h | ⟨b, h, hlt⟩
  · simp [h, hq, hu]
  · simp [h, hq, hu, hlt]

/-- C5 witness: for account u with a row of balance 3, a concrete
request is rejected with 402, no mutation, no provider call. -/
theorem insufficient_credits_rejection_witness :
    (proChatPOST ⟨"q", "u"⟩ .rejected .rejected .rejected
        (setRow Ledger.empty "u" 3)).status = 402 ∧
      (proChatPOST ⟨"q", "u"⟩ .rejected .rejected .rejected
          (setRow Ledger.empty "u" 3)).body = "Insufficient credits" ∧
      (proChatPOST ⟨"q", "u"⟩ .rejected .rejected .rejected
          (setRow Ledger.empty "u" 3)).ledger = setRow Ledger.empty "u" 3 ∧
      (proChatPOST ⟨"q", "u"⟩ .rejected .rejected .rejected
          (setRow Ledger.empty "u" 3)).providersCalled = false :=
  insufficient_credits_rejection ⟨"q", "u"⟩ .rejected .rejected .rejected
    (setRow Ledger.empty "u" 3) (by decide) (by decide)
    (Or.inr ⟨3, by decide, by decide⟩)

/-- C4: when the debit went through (row present with balance at least
10) and all three provider calls fail, the handler restores the
database to exactly its pre-debit state and answers with a 500 error,
not a success. -/
theorem refund_on_total_failure (req : ProChatRequest) (l : Ledger) (b : Int)
    (hq : req.query ≠ "") (hu : req.userId ≠ "")
    (hb : l req.userId = some b) (hge : 10 ≤ b) :
    (proChatPOST req .rejected .rejected .rejected l).status = 500 ∧
      (proChatPOST req .rejected .rejected .rejected l).body
        = "All AI models failed to respond" ∧
      (proChatPOST req .rejected .rejected .rejected l).ledger = l := by
  have hnlt : ¬ b < 10 := not_lt.mpr hge
  have hL : setRow (setRow l req.userId (b - 10)) req.userId b = l := by
    funext x
    by_cases hx : x = req.userId
    · subst hx; simp [setRow, hb]
    · simp [setRow, hx]
  unfold proChatPOST
  simp [hq, hu, hb, hnlt, combineAll, combineStep, hL]

/-- C4 witness: from a row of balance 25, a concrete request whose
three provider calls all fail answers 500 and leaves the balance back
at 25. -/
theorem refund_on_total_failure_witness :
    (proChatPOST ⟨"q", "u"⟩ .rejected .rejected .rejected
        (setRow Ledger.empty "u" 25)).status = 500 ∧
      (proChatPOST ⟨"q", "u"⟩ .rejected .rejected .rejected
          (setRow Ledger.empty "u" 25)).body = "All AI models failed to respond" ∧
      (proChatPOST ⟨"q", "u"⟩ .rejected .rejected .rejected
          (setRow Ledger.empty "u" 25)).ledger = setRow Ledger.empty "u" 25 :=
  refund_on_total_failure ⟨"q", "u"⟩ (setRow Ledger.empty "u" 25) 25
    (by decide) (by decide) (by decide) (by decide)

/-- Refund as the source implements it: overwrite the account's row
with the balance that was read before the debit. -/
def refundOverwrite (initialBalance : Int) (u : AccountId) (l : Ledger) : Ledger :=
  setRow l u initialBalance

/-- Modelled from the spec: refund(accountId, amount) adds the debited
amount back onto the current balance (inserting a row holding just the
amount if, against expectation after a debit, none exists). -/
def refundAddBack (amount : Int) (u : AccountId) (l : Ledger) : Ledger :=
  match l u with
  | some b => setRow l u (b + amount)
  | none => setRow l u amount

/-- C10: in a sequential run with no other write between the initial
read and the refund, the handler's refund is the overwrite-refund with
the initially read balance, and on the post-debit state that overwrite
coincides with the spec's add-back-refund of the 10-credit price: both
final states are the same function of the initially read balance. -/
theorem refund_overwrite_equals_addback (req : ProChatRequest) (l : Ledger) (b : Int)
    (hq : req.query ≠ "") (hu : req.userId ≠ "")
    (hb : l req.userId = some b) (hge : 10 ≤ b) :
    (proChatPOST req .rejected .rejected .rejected l).ledger
        = refundOverwrite b req.userId (setRow l req.userId (b - 10)) ∧
      refundOverwrite b req.userId (setRow l req.userId (b - 10))
        = refundAddBack 10 req.userId (setRow l req.userId (b - 10)) := by
  have hnlt : ¬ b < 10 := not_lt.mpr hge
  constructor
  · unfold proChatPOST
    simp [hq, hu, hb, hnlt, combineAll, combineStep, refundOverwrite]
  · funext x
    by_cases hx : x = req.userId
    · subst hx; simp [refundOverwrite, refundAddBack, setRow]
    · simp [refundOverwrite, refundAddBack, setRow, hx]

/-- C10 witness: the two refund strategies agree on a concrete run
from a row of balance 42. -/
theorem refund_overwrite_equals_addback_witness :
    (proChatPOST ⟨"q", "u"⟩ .rejected .rejected .rejected
        (setRow Ledger.empty "u" 42)).ledger
        = refundOverwrite 42 "u" (setRow (setRow Ledger.empty "u" 42) "u" (42 - 10)) ∧
      refundOverwrite 42 "u" (setRow (setRow Ledger.empty "u" 42) "u" (42 - 10))
        = refundAddBack 10 "u" (setRow (setRow Ledger.empty "u" 42) "u" (42 - 10)) :=
  refund_overwrite_equals_addback ⟨"q", "u"⟩ (setRow Ledger.empty "u" 42) 42
    (by decide) (by decide) (by decide) (by decide)

/-- C8: once the credit check passed, the handler's response is
determined by the three provider outcomes: when at least one call
fulfilled, it answers 200 and the body is exactly the concatenation,
in the fixed order OpenAI then Claude then Gemini, of one section per
fulfilled provider, failed providers contributing nothing; the
all-failed 500 error path is taken exactly when all three calls
fail. -/
theorem fanout_merge (req : ProChatRequest) (r1 r2 r3 : ProviderOutcome)
    (l : Ledger) (b : Int)
    (hq : req.query ≠ "") (hu : req.userId ≠ "")
    (hb : l req.userId = some b) (hge : 10 ≤ b) :
    (¬ (r1 = .rejected ∧ r2 = .rejected ∧ r3 = .rejected) →
        (proChatPOST req r1 r2 r3 l).status = 200 ∧
          (proChatPOST req r1 r2 r3 l).body
            = sectionText "Advanced Analytics Engine" r1
                ++ sectionText "Deep Learning Analysis" r2
                ++ sectionText "Neural Network Insights" r3) ∧
      ((r1 = .rejected ∧ r2 = .rejected ∧ r3 = .rejected) →
        (proChatPOST req r1 r2 r3 l).status = 500) := by
  have hnlt : ¬ b < 10 := not_lt.mpr hge
  cases r1 <;> cases r2 <;> cases r3 <;>
    simp [proChatPOST, hq, hu, hb, hnlt, combineAll, combineStep, sectionText,
      String.append_assoc, String.append_empty, String.empty_append]

/-- C8 witness: with OpenAI and Gemini fulfilled and Claude failed,
the concrete response is 200 and exactly the two sections in order. -/
theorem fanout_merge_witness :
    (proChatPOST ⟨"q", "u"⟩ (.fulfilled "A") .rejected (.fulfilled "C")
        (setRow Ledger.empty "u" 15)).status = 200 ∧
      (proChatPOST ⟨"q", "u"⟩ (.fulfilled "A") .rejected (.fulfilled "C")
          (setRow Ledger.empty "u" 15)).body
        = sectionText "Advanced Analytics Engine" (.fulfilled "A")
            ++ sectionText "Deep Learning Analysis" .rejected
            ++ sectionText "Neural Network Insights" (.fulfilled "C") :=
  (fanout_merge ⟨"q", "u"⟩ (.fulfilled "A") .rejected (.fulfilled "C")
      (setRow Ledger.empty "u" 15) 15 (by decide) (by decide) (by decide) (by decide)).1
    (by decide)

/-- One sequentially executed operation against the ledger: a webhook
delivery (with its signature-verification outcome) or a pro-chat
request (with its three provider outcomes). -/
inductive LedgerOp where
  | webhookDelivery (verified : Option StripeEvent)
  | proChatRequest (req : ProChatRequest) (r1 r2 r3 : ProviderOutcome)

/-- The database state after one operation ran to completion. -/
def applyOp (l : Ledger) : LedgerOp → Ledger
  | .webhookDelivery v => (stripeWebhookPOST v l).ledger
  | .proChatRequest req r1 r2 r3 => (proChatPOST req r1 r2 r3 l).ledger

/-- Sequential execution of a list of operations, oldest first. -/
def runOps (ops : List LedgerOp) (l : Ledger) : Ledger :=
  ops.foldl applyOp l

/-- The spec's credit precondition (amount > 0), instantiated per
operation: it constrains only verified completed-purchase events. -/
def creditPositive : LedgerOp → Prop
  | .webhookDelivery (some (.checkoutSessionCompleted _ _ a)) => 0 < a
  | _ => True

/-- Every ledger row that exists holds a non-negative balance. -/
def nonnegative (l : Ledger) : Prop :=
  ∀ u b, l u = some b → 0 ≤ b

lemma setRow_nonneg (l : Ledger) (u : AccountId) (b : Int)
    (hl : nonnegative l) (hb : 0 ≤ b) : nonnegative (setRow l u b) := by
  intro x c hx
  unfold setRow at hx
  by_cases h : x = u
  · simp [h] at hx; omega
  · simp [h] at hx; exact hl x c hx

lemma stripeWebhookPOST_nonneg (v : Option StripeEvent) (l : Ledger)
    (hl : nonnegative l) (hv : creditPositive (.webhookDelivery v)) :
    nonnegative (stripeWebhookPOST v l).ledger := by
  match v with
  | none => exact hl
  | some .otherEvent => exact hl
  | some (.checkoutSessionCompleted eid u a) =>
      have ha : 0 < a := hv
      unfold stripeWebhookPOST
      cases h : l u with
      | none => simpa [h] using setRow_nonneg l u a hl (le_of_lt ha)
      | some b =>
          have hb : 0 ≤ b := hl u b h
          simpa [h] using setRow_nonneg l u (b + a) hl (by omega)

lemma proChatPOST_nonneg (req : ProChatRequest) (r1 r2 r3 : ProviderOutcome)
    (l : Ledger) (hl : nonnegative l) :
    nonnegative (proChatPOST req r1 r2 r3 l).ledger := by
  unfold proChatPOST
  by_cases hval : req.query = "" ∨ req.userId = ""
  · simpa [hval] using hl
  · simp only [hval, if_false, ite_false]
    cases h : l req.userId with
    | none => exact hl
    | some b =>
        have hb : 0 ≤ b := hl req.userId b h
        by_cases hlt : b < 10
        · simpa [hlt] using hl
        · by_cases hm : (combineAll r1 r2 r3).2.length = 0
          · simp only [hlt, hm, if_false, if_true, ite_false, ite_true]
            exact setRow_nonneg _ req.userId b
              (setRow_nonneg l req.userId (b - 10) hl (by omega)) hb
          · simp only [hlt, hm, if_false, ite_false]
            exact setRow_nonneg l req.userId (b - 10) hl (by omega)

lemma runOps_nonneg (ops : List LedgerOp) (l : Ledger)
    (hl : nonnegative l) (hpos : ∀ op ∈ ops, creditPositive op) :
    nonnegative (runOps ops l) := by
  induction ops generalizing l with
  | nil => exact hl
  | cons op ops ih =>
      have hstep : nonnegative (applyOp l op) := by
        cases op with
        | webhookDelivery v =>
            exact stripeWebhookPOST_nonneg v l hl (hpos _ (List.mem_cons_self _ _))
        | proChatRequest req r1 r2 r3 => exact proChatPOST_nonneg req r1 r2 r3 l hl
      exact ih (applyOp l op) hstep (fun o ho => hpos o (List.mem_cons_of_mem _ ho))

/-- C3: from the initial state with no ledger row, any finite sequence
of sequentially executed webhook deliveries (with positive credited
amounts, per the credit precondition) and pro-chat requests leaves
every existing account balance non-negative. -/
theorem balance_never_negative (ops : List LedgerOp)
    (hpos : ∀ op ∈ ops, creditPositive op) :
    nonnegative (runOps ops Ledger.empty) :=
  runOps_nonneg ops Ledger.empty (fun u b h => by simp [Ledger.empty] at h) hpos

/-- A concrete sequence for the C3 witness: a 500-credit purchase,
one successful pro-chat request, and one whose providers all fail. -/
def demoOps : List LedgerOp :=
  [.webhookDelivery (some (.checkoutSessionCompleted "evt_abc" "u" 500)),
   .proChatRequest ⟨"q", "u"⟩ (.fulfilled "A") .rejected .rejected,
   .proChatRequest ⟨"q", "u"⟩ .rejected .rejected .rejected]

/-- C3 witness: the invariant holds after running the concrete
sequence from the empty database. -/
theorem balance_never_negative_witness :
    nonnegative (runOps demoOps Ledger.empty) :=
  balance_never_negative demoOps (by
    intro op hop
    simp only [demoOps, List.mem_cons, List.not_mem_nil, or_false] at hop
    rcases hop with rfl | rfl | rfl
    · exact (by decide : (0 : Int) < 500)
    · exact trivial
    · exact trivial)

/-- Progress of one in-flight pro-chat debit, at the granularity of
its two database round trips: before the SELECT of the balance row;
after the SELECT, holding the row it read; finished (with the UPDATE
written when the local check passed).  The source performs the check
on the value it read and then a separate, unconditional UPDATE to
that value minus 10, so nothing re-reads at write time. -/
inductive ThreadPhase where
  | start
  | readDone (row : Option Int)
  | finished (success : Bool)
deriving DecidableEq

/-- One database round trip of one debiting request: the SELECT, or
the local check followed (on success) by the UPDATE to readValue - 10. -/
def debitThreadStep (u : AccountId) (ph : ThreadPhase) (l : Ledger) :
    ThreadPhase × Ledger :=
  match ph with
  | .start => (.readDone (l u), l)
  | .readDone none => (.finished false, l)
  | .readDone (some b) =>
      if b < 10 then (.finished false, l)
      else (.finished true, setRow l u (b - 10))
  | .finished s => (.finished s, l)

/-- Two pro-chat debits for the same account in flight at once. -/
structure DebitRace where
  ledger : Ledger
  t1 : ThreadPhase
  t2 : ThreadPhase

/-- Let the chosen request perform its next database round trip. -/
def debitRaceStep (u : AccountId) (s : DebitRace) (who : Bool) : DebitRace :=
  if who then
    let p := debitThreadStep u s.t1 s.ledger
    ⟨p.2, p.1, s.t2⟩
  else
    let p := debitThreadStep u s.t2 s.ledger
    ⟨p.2, s.t1, p.1⟩

/-- Run an interleaving schedule: each entry names the request that
performs its next database round trip. -/
def runDebitRace (u : AccountId) (sched : List Bool) (s : DebitRace) : DebitRace :=
  sched.foldl (debitRaceStep u) s

/-- C2 (refuting evaluation): from a balance of 10, under the
interleaving in which both requests SELECT before either UPDATEs,
both debits succeed and the final balance is 0 — the read-then-write
debit is not an atomic check-and-decrement, so the claimed
exactly-one-success outcome fails. -/
theorem tryDebit_race_both_succeed :
    (runDebitRace "acct" [true, false, true, false]
        ⟨setRow Ledger.empty "acct" 10, .start, .start⟩).t1 = .finished true ∧
      (runDebitRace "acct" [true, false, true, false]
          ⟨setRow Ledger.empty "acct" 10, .start, .start⟩).t2 = .finished true ∧
      (runDebitRace "acct" [true, false, true, false]
          ⟨setRow Ledger.empty "acct" 10, .start, .start⟩).ledger "acct" = some 0 := by
  refine ⟨rfl, rfl, ?_⟩
  show some (10 - 10 : Int) = some 0
  norm_num

/-- Behaviour of one provider's HTTP endpoint for one request: `none`
if it never responds, otherwise the latency after which it responds,
the HTTP ok flag, and the extracted response text. -/
def Upstream := Option (Nat × Bool × String)

/-- Completion behaviour of one provider call in the pro-chat fan-out
(fetchOpenAI, fetchClaude, fetchGemini are all this shape): the
handler awaits fetch with no AbortSignal and no timer racing it, so
the await settles exactly when the upstream responds — after the
upstream's full latency, fulfilled when the response was ok and
rejected otherwise — and never settles when the upstream never
responds. -/
def providerCall (u : Upstream) : Option (Nat × ProviderOutcome) :=
  match u with
  | none => none
  | some (t, ok, body) => some (t, if ok then .fulfilled body else .rejected)

/-- Completion time of the fan-out's await on Promise.allSettled: it
settles once every one of the three calls has settled, hence never
when any one of them never settles. -/
def allSettledCompletion (u1 u2 u3 : Upstream) : Option Nat :=
  match providerCall u1, providerCall u2, providerCall u3 with
  | some r1, some r2, some r3 => some (max r1.1 (max r2.1 r3.1))
  | _, _, _ => none

/-- C9 (refuting evaluation): a provider call against an upstream that
never responds never settles, and with two providers answering (after
1 and 2 time units) but the third silent, the fan-out — and with it
the pro-chat request — never completes: no timeout guards the calls,
contrary to the claim that a slow upstream cannot hang a request. -/
theorem provider_call_no_timeout :
    providerCall none = none ∧
      allSettledCompletion (some (1, true, "a")) none (some (2, true, "b")) = none :=
  ⟨rfl, rfl⟩

end EdgeRusher
